import Mathlib

/-!
Verification development for the Converse-With-Your-Data backend.

The Python backend (src/backend) is shallowly embedded below.  External
collaborators (the OpenAI text-generation calls, DuckDB execution, pandas
date parsing, the Plotly chart builders) are modelled as explicit
parameters: an LLM call is an `Option String` (its reply text, or `none`
when the call raised), query execution is a function
`String → Except ExecErr DF`, and date parsing is `String → Option Int`.
All control flow, parsing, filtering and state updates are translated
directly from the source.
-/

/-! ## Python string primitives (translated operations on character lists) -/

/-- Whitespace characters stripped by Python `str.strip()`. -/
def isPySpace (c : Char) : Bool :=
  c = ' ' ∨ c = '\t' ∨ c = '\n' ∨ c = '\r' ∨ c = Char.ofNat 11 ∨ c = Char.ofNat 12

/-- Python `str.split(sep)`: splits at every separator, keeping empty pieces. -/
def pySplit (sep : Char) : List Char → List (List Char)
  | [] => [[]]
  | c :: cs =>
      let r := pySplit sep cs
      if c = sep then [] :: r
      else
        match r with
        | [] => [[c]]
        | p :: ps => (c :: p) :: ps

/-- Python `str.strip()` on a character list. -/
def pyStripChars (l : List Char) : List Char :=
  ((l.dropWhile isPySpace).reverse.dropWhile isPySpace).reverse

/-- Python `str.strip()` on a string. -/
def pyStrip (s : String) : String :=
  String.mk (pyStripChars s.toList)

/-- Python `str.upper()` (ASCII). -/
def pyUpper (s : String) : String :=
  String.mk (s.toList.map Char.toUpper)

/-- The single-quote character. -/
def squote : Char := Char.ofNat 39

/-- The double-quote character. -/
def dquote : Char := Char.ofNat 34

/-- Python `str.replace(c, "")`: deletes every occurrence of the character. -/
def pyDeleteChar (c : Char) (l : List Char) : List Char :=
  l.filter (fun x => x ≠ c)

/-- `s.strip().replace("'", "").replace('"', '')` from
`suggest_visualizations` / `recognize_visualization_request`. -/
def normalizePiece (l : List Char) : List Char :=
  pyDeleteChar dquote (pyDeleteChar squote (pyStripChars l))

/-- Python `str.title()` (ASCII): uppercase a letter not preceded by a
letter, lowercase the rest; the Boolean flag records whether the previous
character was alphabetic. -/
def pyTitleAux : List Char → Bool → List Char
  | [], _ => []
  | c :: cs, prevAlpha =>
      (if c.isAlpha then (if prevAlpha then c.toLower else c.toUpper) else c)
        :: pyTitleAux cs c.isAlpha

/-- `f"{vis_name} - {vis_type.replace('_', ' ').title()}"` from `visualize_data`. -/
def chartTitle (vis_name vt : String) : String :=
  vis_name ++ " - " ++
    String.mk (pyTitleAux (vt.toList.map (fun c => if c = '_' then ' ' else c)) false)

/-! ## Taxonomy and the shared parse-and-validate routine (visualization.py) -/

/-- `supported_plot_types` from visualization.py line 27. -/
def supported_plot_types : List String :=
  ["BAR_CHART", "LINE_CHART", "SCATTER_PLOT", "HISTOGRAM", "BOX_PLOT", "PIE_CHART"]

/-- The comma-split / strip / quote-delete / drop-empty comprehension shared
verbatim by `suggest_visualizations` (line 85) and
`recognize_visualization_request` (line 159). -/
def parsePieces (raw : String) : List String :=
  ((pySplit ',' raw.toList).filter (fun p => pyStripChars p ≠ [])).map
    (fun p => String.mk (normalizePiece p))

/-- An element of `final_suggestions` in `suggest_visualizations`. -/
structure Suggestion where
  type : String
  reason : String
deriving DecidableEq, Repr

/-- The dedup-and-filter loop of `suggest_visualizations` (lines 89-94):
`seen` is the mutable `seen_types` set, represented as the list of types
already accepted. -/
def suggestLoop (seen : List String) : List String → List Suggestion
  | [] => []
  | t :: ts =>
      if t ∈ supported_plot_types ∧ t ∉ seen then
        ⟨t, "LLM-suggested based on schema."⟩ :: suggestLoop (t :: seen) ts
      else
        suggestLoop seen ts

/-- Parsing and validation of a raw LLM reply in `suggest_visualizations`. -/
def suggestFromReply (raw : String) : List Suggestion :=
  suggestLoop [] (parsePieces raw)

/-- Taxonomy filtering in `recognize_visualization_request` (line 163):
no deduplication, only membership filtering. -/
def recParse (t : String) : List String :=
  (parsePieces t).filter (fun s => s ∈ supported_plot_types)

/-! ## Schema dictionaries (data_ingestion.py / llm_integration.py) -/

/-- One `{column_name, data_type}` entry of a schema. -/
structure ColumnInfo where
  column_name : String
  data_type : String
deriving DecidableEq, Repr

/-- A value stored in the schema dictionary built by `get_schema`. -/
inductive DictVal where
  | str (s : String)
  | cols (cs : List ColumnInfo)
deriving DecidableEq, Repr

/-- The Python dict produced by `get_schema`: string keys to values. -/
abbrev SchemaInfo := List (String × DictVal)

/-- Dictionary key lookup. -/
def dictFind : SchemaInfo → String → Option DictVal
  | [], _ => none
  | (k, v) :: rest, key => if k = key then some v else dictFind rest key

/-- Python `d.get(key, default)` for a string-valued entry. -/
def dictGetStr (si : SchemaInfo) (key dflt : String) : String :=
  match dictFind si key with
  | some (.str s) => s
  | _ => dflt

/-- Python `d.get(key, [])` for a column-list entry. -/
def dictGetCols (si : SchemaInfo) (key : String) : List ColumnInfo :=
  match dictFind si key with
  | some (.cols cs) => cs
  | _ => []

/-- `get_schema` (data_ingestion.py lines 22-43): builds the schema dict
`{"table_name": ..., "columns": [...]}` from the information-schema rows. -/
def get_schema (table_name : String) (schema_rows : List (String × String)) : SchemaInfo :=
  [("table_name", .str table_name),
   ("columns", .cols (schema_rows.map (fun r => ⟨r.1, r.2⟩)))]

/-! ## suggest_visualizations and recognize_visualization_request -/

/-- `suggest_visualizations` (visualization.py lines 33-103).  The LLM reply
is `none` when the chat-completion call raised (both except branches return
`[]`), `some content` otherwise. -/
def suggest_visualizations (si : SchemaInfo) (reply : Option String) : List Suggestion :=
  let table_name := dictGetStr si "table_name" "UNKNOWN_TABLE"
  let columns := dictGetCols si "columns"
  if table_name = "" ∨ columns = [] then []
  else
    match reply with
    | none => []
    | some content => suggestFromReply (pyStrip content)

/-- `recognize_visualization_request` (visualization.py lines 105-175),
parametrized by the LLM reply (`none` = the call raised). -/
def recognize_visualization_request (reply : Option String) : List String :=
  match reply with
  | none => []
  | some content =>
      let t := pyStrip content
      if pyUpper t = "NONE" then [] else recParse t

/-! ## llm_to_sql (llm_integration.py) -/

/-- The `schema_string` built by `llm_to_sql` (lines 19-24): note the lookup
key is `"column_names"`, with default `[]`. -/
def llm_schema_string (si : SchemaInfo) : String :=
  let table_name := dictGetStr si "table_name" ""
  let columns := dictGetCols si "column_names"
  columns.foldl
    (fun acc col => acc ++ " - " ++ col.column_name ++ " (" ++ col.data_type ++ ")\n")
    ("Table: " ++ table_name ++ "\nColumns:\n")

/-- `llm_to_sql` (llm_integration.py lines 18-73): returns the schema string
it embedded in the prompt together with its result — `none` on an API
error, the stripped reply otherwise. -/
def llm_to_sql (si : SchemaInfo) (reply : Option String) : String × Option String :=
  (llm_schema_string si, reply.map pyStrip)

/-! ## Deduplication keeping first occurrences (spec-side reference)

Modelled from the spec: section 4.1 says the validator keeps the
"first occurrence of each accepted token", dropping repeats.  `firstSeen`
realizes exactly those words; the claims compare it with the code-side
loops above. -/

/-- Keep the first occurrence of each element not already in `seen`. -/
def firstSeenAux (seen : List String) : List String → List String
  | [] => []
  | t :: ts => if t ∈ seen then firstSeenAux seen ts else t :: firstSeenAux (t :: seen) ts

/-- Deduplicate a token list, keeping first occurrences in order. -/
def firstSeen (l : List String) : List String :=
  firstSeenAux [] l

/-! ## Dataframe model (pandas, as used by visualize_data) -/

/-- A pandas column dtype, as distinguished by the `select_dtypes` calls in
`visualize_data`: `object`, `category`, `number`, `datetime`, anything else. -/
inductive Dtype where
  | object
  | category
  | number
  | datetime
  | other
deriving DecidableEq, Repr

/-- A cell value.  `null` is NaN/NaT/None; dates are represented by an
integer timestamp. -/
inductive Cell where
  | null
  | str (s : String)
  | int (n : Int)
  | date (d : Int)
deriving DecidableEq, Repr

/-- A dataframe column. -/
structure Col where
  name : String
  dtype : Dtype
  values : List Cell
deriving DecidableEq, Repr

/-- A dataframe: a row count and an ordered list of columns (each column is
expected to carry `nrows` values). -/
structure DF where
  nrows : Nat
  cols : List Col
deriving DecidableEq, Repr

/-- pandas `df.empty`: true when either axis has length zero. -/
def DF.isEmpty (df : DF) : Bool :=
  df.nrows = 0 || df.cols.isEmpty

/-- `df.select_dtypes(include=['object', 'category']).columns`. -/
def DF.categoricalCols (df : DF) : List Col :=
  df.cols.filter (fun c => c.dtype = .object ∨ c.dtype = .category)

/-- `df.select_dtypes(include=['number']).columns`. -/
def DF.numericalCols (df : DF) : List Col :=
  df.cols.filter (fun c => c.dtype = .number)

/-- `df.select_dtypes(include=['datetime']).columns`. -/
def DF.datetimeCols (df : DF) : List Col :=
  df.cols.filter (fun c => c.dtype = .datetime)

/-- `df.select_dtypes(include=['object']).columns`. -/
def DF.objectCols (df : DF) : List Col :=
  df.cols.filter (fun c => c.dtype = .object)

/-- Replace the column named `name`. -/
def DF.setCol (df : DF) (name : String) (c : Col) : DF :=
  { df with cols := df.cols.map (fun col => if col.name = name then c else col) }

/-- Deduplication accumulator for counting distinct cell values. -/
def dedupCellsAux (seen : List Cell) : List Cell → List Cell
  | [] => []
  | c :: cs => if c ∈ seen then dedupCellsAux seen cs else c :: dedupCellsAux (c :: seen) cs

/-- Number of distinct non-null values of a column: the group count of
`df.groupby(col)` and the row count of `col.value_counts()` (both drop
NaN keys by default). -/
def distinctCount (c : Col) : Nat :=
  (dedupCellsAux [] (c.values.filter (fun v => v ≠ Cell.null))).length

/-! ## Chart construction (visualize_data, visualization.py lines 177-314) -/

/-- The shape of a produced Plotly figure that the engine's decisions
determine: the chart kind, the title, and the column names passed as the
x/names and y/values arguments. -/
structure ChartSpec where
  kind : String
  title : String
  x : String
  y : String
deriving DecidableEq, Repr

/-- The BAR_CHART branch (lines 208-221).  Returns the caller's dataframe
(the branch never assigns into `df`) and the figure, if one was built. -/
def barChartStep (df : DF) (title : String) : DF × Option ChartSpec :=
  match df.categoricalCols, df.numericalCols with
  | c0 :: _, n0 :: _ => (df, some ⟨"BAR_CHART", title, c0.name, n0.name⟩)
  | c0 :: _, [] => (df, some ⟨"BAR_CHART", title, c0.name, "count"⟩)
  | [], _ => (df, none)

/-- `pd.to_datetime(col, errors='coerce')` on an object column, with the
external parser as a parameter: unparseable entries become null (NaT). -/
def toDatetimeCoerce (parse : String → Option Int) (l : List Cell) : List Cell :=
  l.map fun c =>
    match c with
    | .str s => match parse s with | some d => .date d | none => .null
    | .date d => .date d
    | _ => .null

/-- The LINE_CHART branch (lines 223-245).  The date-parse attempt is made
on `df_for_plot = df.copy()`; the caller's dataframe is returned
untouched. -/
def lineChartStep (parse : String → Option Int) (df : DF) (title : String) :
    DF × Option ChartSpec :=
  match df.datetimeCols, df.numericalCols with
  | d0 :: _, n0 :: _ => (df, some ⟨"LINE_CHART", title, d0.name, n0.name⟩)
  | _, _ =>
      match df.objectCols, df.numericalCols with
      | o0 :: _, n0 :: _ =>
          let converted := toDatetimeCoerce parse o0.values
          let _df_for_plot := df.setCol o0.name ⟨o0.name, .datetime, converted⟩
          if converted.any (fun c => c ≠ Cell.null) then
            (df, some ⟨"LINE_CHART", title, o0.name, n0.name⟩)
          else (df, none)
      | _, _ => (df, none)

/-- The SCATTER_PLOT branch (lines 247-254). -/
def scatterStep (df : DF) (title : String) : DF × Option ChartSpec :=
  match df.numericalCols with
  | n0 :: n1 :: _ => (df, some ⟨"SCATTER_PLOT", title, n0.name, n1.name⟩)
  | _ => (df, none)

/-- The HISTOGRAM branch (lines 256-263). -/
def histogramStep (df : DF) (title : String) : DF × Option ChartSpec :=
  match df.numericalCols with
  | n0 :: _ => (df, some ⟨"HISTOGRAM", title, n0.name, ""⟩)
  | [] => (df, none)

/-- The BOX_PLOT branch (lines 265-276). -/
def boxPlotStep (df : DF) (title : String) : DF × Option ChartSpec :=
  match df.numericalCols, df.categoricalCols with
  | n0 :: _, c0 :: _ => (df, some ⟨"BOX_PLOT", title, c0.name, n0.name⟩)
  | n0 :: _, [] => (df, some ⟨"BOX_PLOT", title, "", n0.name⟩)
  | [], _ => (df, none)

/-- The PIE_CHART branch (lines 278-298): group the first numerical column
by the first categorical one (or take value counts when no numerical column
exists) and plot only when the group count is strictly more than 1 and at
most 10. -/
def pieChartStep (df : DF) (title : String) : DF × Option ChartSpec :=
  match df.categoricalCols, df.numericalCols with
  | c0 :: _, n0 :: _ =>
      if 1 < distinctCount c0 ∧ distinctCount c0 ≤ 10 then
        (df, some ⟨"PIE_CHART", title, c0.name, n0.name⟩)
      else (df, none)
  | c0 :: _, [] =>
      if 1 < distinctCount c0 ∧ distinctCount c0 ≤ 10 then
        (df, some ⟨"PIE_CHART", title, c0.name, "count"⟩)
      else (df, none)
  | [], _ => (df, none)

/-- One iteration of the `for vis_type in valid_vis_types` loop: the
if/elif chain on the kind (lines 208-298). -/
def stepKind (parse : String → Option Int) (vis_name : String) (df : DF) (vt : String) :
    DF × Option ChartSpec :=
  let title := chartTitle vis_name vt
  if vt = "BAR_CHART" then barChartStep df title
  else if vt = "LINE_CHART" then lineChartStep parse df title
  else if vt = "SCATTER_PLOT" then scatterStep df title
  else if vt = "HISTOGRAM" then histogramStep df title
  else if vt = "BOX_PLOT" then boxPlotStep df title
  else if vt = "PIE_CHART" then pieChartStep df title
  else (df, none)

/-- Failure modes of `visualize_data`: the two `ValueError`s raised at
lines 180 and 312. -/
inductive VisErr where
  | emptyData
  | noPlots
deriving DecidableEq, Repr

/-- The message of each `ValueError`. -/
def VisErr.msg : VisErr → String
  | .emptyData => "ERROR---DataFrame is empty."
  | .noPlots => "ERROR---No plots could be generated from the provided data and visualization types."

instance {ε α : Type} [DecidableEq ε] [DecidableEq α] : DecidableEq (Except ε α) := fun x y =>
  match x, y with
  | .error a, .error b =>
      if h : a = b then .isTrue (by rw [h]) else .isFalse (by simp [h])
  | .ok a, .ok b =>
      if h : a = b then .isTrue (by rw [h]) else .isFalse (by simp [h])
  | .error _, .ok _ => .isFalse (by simp)
  | .ok _, .error _ => .isFalse (by simp)

/-- Result of `visualize_data`: the returned figures or the raised error,
the final value of the caller's dataframe, and an instrumentation flag
recording whether any column classification (`select_dtypes`) ran. -/
structure VisOutcome where
  out : Except VisErr (List ChartSpec)
  frame : DF
  classified : Bool
deriving DecidableEq, Repr

/-- `visualize_data` (visualization.py lines 177-314). -/
def visualize_data (parse : String → Option Int) (df : DF) (vis_types : List String)
    (vis_name : String) : VisOutcome :=
  if df.isEmpty then ⟨.error .emptyData, df, false⟩
  else
    let valid_vis_types := vis_types.filter (fun vt => vt ∈ supported_plot_types)
    if valid_vis_types.isEmpty then ⟨.ok [], df, false⟩
    else
      let r := valid_vis_types.foldl
        (fun acc vt =>
          let s := stepKind parse vis_name acc.1 vt
          (s.1, acc.2 ++ s.2.toList))
        (df, ([] : List ChartSpec))
      if r.2.isEmpty then ⟨.error .noPlots, r.1, true⟩ else ⟨.ok r.2, r.1, true⟩

/-! ## Session state and endpoints (main.py) -/

/-- A raised `HTTPException`: status code and detail. -/
structure HttpError where
  status : Nat
  detail : String
deriving DecidableEq, Repr

/-- The per-session module-level state of main.py (lines 49-56), restricted
to the single session `"default_user_session"`: each dict becomes an
optional field (`none` = the key is absent for the session). -/
structure Store where
  connections : Option Unit
  schemas : Option SchemaInfo
  full_dataset_dfs : Option DF
  last_query_results : Option DF
  generated_plotly_figures : Option (List ChartSpec)
deriving DecidableEq, Repr

/-- The JSON body returned by the ingestion endpoint. -/
structure IngestResponse where
  message : String
  schema : SchemaInfo
  initial_suggestions : List Suggestion
deriving DecidableEq, Repr

/-- `ingest_data_and_extract_schema_endpoint` (main.py lines 62-141).
External collaborators are parameters: `ingestResult` is the DuckDB
connection returned by `ingest_data` (`none` = ingestion failed), `schema`
is `get_schema`'s output, `full_df` is the `SELECT *` fetch, and
`suggestReply` is the LLM reply used for initial suggestions.  Returns the
session store after the request together with the HTTP outcome. -/
def ingest_data_and_extract_schema_endpoint (st : Store) (data_start_line : Int)
    (ingestResult : Option Unit) (schema : SchemaInfo) (full_df : DF)
    (suggestReply : Option String) : Store × Except HttpError IngestResponse :=
  if data_start_line < 1 then
    (st, .error ⟨400, "Data start line number must be 1 or greater."⟩)
  else
    match ingestResult with
    | none => (st, .error ⟨500, "Failed to ingest data into DuckDB. Check server logs for details."⟩)
    | some _ =>
        let st := { st with connections := some (), schemas := some schema }
        let st := { st with full_dataset_dfs := some full_df }
        let st := { st with last_query_results := none, generated_plotly_figures := none }
        let sugg := suggest_visualizations schema suggestReply
        (st, .ok ⟨"File processed and schema extracted.", schema, sugg⟩)

/-- Failure modes of `conn.execute(...)` in the query endpoint:
`duckdb.ParserException`, other `duckdb.Error`, any other exception. -/
inductive ExecErr where
  | parserError (m : String)
  | dbError (m : String)
  | otherError (m : String)
deriving DecidableEq, Repr

/-- The `HTTPException` each execution failure is mapped to
(main.py lines 165-173). -/
def execErrToHttp : ExecErr → HttpError
  | .parserError m =>
      ⟨400, "Invalid SQL generated: " ++ m ++ ". Please try another query or rephrase."⟩
  | .dbError m =>
      ⟨500, "Error executing query: " ++ m ++ ". Check column names or data types in your query."⟩
  | .otherError m =>
      ⟨500, "Internal server error during query execution: " ++ m⟩

/-- The JSON body returned by the query endpoint. -/
structure QueryResponse where
  message : String
  sql_query : String
  results : Option DF
deriving DecidableEq, Repr

/-- `query_data_endpoint` (main.py lines 145-188).  `llmReply` is the raw
text-generation reply inside `llm_to_sql` (`none` = the call raised);
`exec` is DuckDB execution.  Returns the store after the request, the HTTP
outcome, and the query string that was actually executed (`none` when
execution was never attempted). -/
def query_data_endpoint (st : Store) (llmReply : Option String)
    (exec : String → Except ExecErr DF) :
    Store × (Except HttpError QueryResponse × Option String) :=
  match st.connections, st.schemas with
  | some _, some schema =>
      match (llm_to_sql schema llmReply).2 with
      | none =>
          (st, (.error ⟨500, "Failed to generate SQL query from natural language. Please rephrase your question."⟩, none))
      | some generated_sql =>
          if generated_sql = "" then
            (st, (.error ⟨500, "Failed to generate SQL query from natural language. Please rephrase your question."⟩, none))
          else
            match exec generated_sql with
            | .error e => (st, (.error (execErrToHttp e), some generated_sql))
            | .ok output_dataframe =>
                let st := { st with last_query_results := some output_dataframe }
                if output_dataframe.isEmpty then
                  (st, (.ok ⟨"Query executed successfully, but returned no results.", generated_sql, none⟩,
                        some generated_sql))
                else
                  (st, (.ok ⟨"Query executed successfully. Tabular results:", generated_sql,
                             some output_dataframe⟩,
                        some generated_sql))
  | _, _ =>
      (st, (.error ⟨400, "No data ingested for this session. Please upload a CSV file first."⟩, none))

/-- The `requested_plot_types` / `normalized_plot_types` computation of the
visualization endpoint (main.py lines 204-212): split the form field on
commas, strip, drop empties, recognize each fragment (via the LLM oracle
`rr`) and concatenate the recognized kinds. -/
def normalizedOf (rr : String → Option String) (plot_types : String) : List String :=
  let requested := ((pySplit ',' plot_types.toList).map (fun p => pyStripChars p)).filter
    (fun p => p ≠ [])
  List.flatten (requested.map (fun p => recognize_visualization_request (rr (String.mk p))))

/-- `generate_visualization_endpoint` (main.py lines 190-248).  `rr` maps
each comma-split fragment to the recognizer's LLM reply; `parse` is the
date parser used by the engine.  Returns the HTTP outcome and the
engine's column-classification flag (false when the engine never
classified any column). -/
def generate_visualization_endpoint (rr : String → Option String)
    (parse : String → Option Int) (st : Store) (plot_types : String) :
    Except HttpError (List ChartSpec) × Bool :=
  match st.full_dataset_dfs, st.schemas with
  | some df_to_visualize, some schema =>
      if df_to_visualize.isEmpty then
        (.error ⟨400, "Last query returned no data. Cannot generate a plot."⟩, false)
      else
        let normalized_plot_types := normalizedOf rr plot_types
        if normalized_plot_types.isEmpty then
          (.error ⟨400, "No valid visualization types were provided or recognized."⟩, false)
        else
          let v := visualize_data parse df_to_visualize normalized_plot_types
            (dictGetStr schema "table_name" "")
          match v.out with
          | .error e =>
              (.error ⟨400, "Cannot generate plots: " ++ e.msg ++ ". Data might not be suitable for requested types."⟩,
               v.classified)
          | .ok figs =>
              if figs.isEmpty then
                (.error ⟨400, "Cannot generate plots: No plots could be generated or converted to JSON.. Data might not be suitable for requested types."⟩,
                 v.classified)
              else (.ok figs, v.classified)
  | _, _ =>
      (.error ⟨400, "No full dataset available for visualization. Please upload a CSV first via /ingestion_suggestion/."⟩, false)

/-! ## Concrete instances used by witnesses and counterexamples -/

/-- A date parser that never succeeds (concrete instance for evaluation). -/
def parseNone : String → Option Int := fun _ => none

/-- A recognizer LLM oracle whose call always raises. -/
def rrNone : String → Option String := fun _ => none

/-- A one-row, one-numerical-column dataframe. -/
def dfOneNum : DF := ⟨1, [⟨"n", .number, [.int 5]⟩]⟩

/-- A two-row dataframe with one categorical column (two distinct values)
and one numerical column. -/
def dfPie2 : DF :=
  ⟨2, [⟨"c", .object, [.str "a", .str "b"]⟩, ⟨"v", .number, [.int 1, .int 2]⟩]⟩

/-- The first categorical column of `dfPie2`. -/
def pieCatCol : Col := ⟨"c", .object, [.str "a", .str "b"]⟩

/-- A schema dict for a one-column table, as `get_schema` builds it. -/
def schemaT : SchemaInfo := get_schema "t" [("a", "INTEGER")]

/-- A store holding ingested data (`dfPie2`) for the session. -/
def storeReady : Store := ⟨some (), some schemaT, some dfPie2, none, none⟩

/-- The raw text `''BAR_CHART''`: a doubly-quoted taxonomy token. -/
def doublyQuotedBar : String :=
  String.mk ([squote, squote] ++ "BAR_CHART".toList ++ [squote, squote])

/-- The raw text `BAR'_'CHART`: a taxonomy token with interior quotes. -/
def interiorQuotedBar : String :=
  String.mk ("BAR".toList ++ [squote, '_', squote] ++ "CHART".toList)

/-- A query executor that always succeeds (concrete instance). -/
def execOk : String → Except ExecErr DF := fun _ => .ok dfOneNum

/-- A store carrying stale derived artifacts from a previous dataset. -/
def storeStale : Store := ⟨some (), some schemaT, some dfOneNum, some dfOneNum, some []⟩

/-! ## Lemmas about the validator loops -/

theorem suggestLoop_map_type (l : List String) : ∀ seen,
    (suggestLoop seen l).map Suggestion.type
      = firstSeenAux seen (l.filter (fun t => t ∈ supported_plot_types)) := by
  induction l with
  | nil => intro seen; rfl
  | cons t ts ih =>
      intro seen
      by_cases hs : t ∈ supported_plot_types
      · by_cases hseen : t ∈ seen
        · simp [suggestLoop, firstSeenAux, hs, hseen, ih]
        · simp [suggestLoop, firstSeenAux, hs, hseen, ih]
      · simp [suggestLoop, firstSeenAux, hs, ih]

theorem firstSeenAux_nodup_notmem (l : List String) : ∀ seen,
    (firstSeenAux seen l).Nodup ∧ ∀ t ∈ firstSeenAux seen l, t ∉ seen := by
  induction l with
  | nil => intro seen; exact ⟨List.nodup_nil, by simp [firstSeenAux]⟩
  | cons t ts ih =>
      intro seen
      by_cases h : t ∈ seen
      · simpa [firstSeenAux, h] using ih seen
      · refine ⟨?_, ?_⟩
        · simp only [firstSeenAux, if_neg h, List.nodup_cons]
          exact ⟨fun hmem => ((ih (t :: seen)).2 t hmem) (List.mem_cons_self _ _),
                 (ih (t :: seen)).1⟩
        · intro x hx
          simp only [firstSeenAux, if_neg h, List.mem_cons] at hx
          rcases hx with rfl | hx
          · exact h
          · exact fun hxseen => (ih (t :: seen)).2 x hx (List.mem_cons_of_mem _ hxseen)

theorem firstSeenAux_subset (l : List String) : ∀ seen, firstSeenAux seen l ⊆ l := by
  induction l with
  | nil => intro seen; simp [firstSeenAux]
  | cons t ts ih =>
      intro seen x hx
      by_cases h : t ∈ seen
      · simp only [firstSeenAux, if_pos h] at hx
        exact List.mem_cons_of_mem _ (ih seen hx)
      · simp only [firstSeenAux, if_neg h, List.mem_cons] at hx
        rcases hx with rfl | hx
        · exact List.mem_cons_self _ _
        · exact List.mem_cons_of_mem _ (ih (t :: seen) hx)

theorem suggestFromReply_types_subset (raw : String) :
    (suggestFromReply raw).map Suggestion.type ⊆ supported_plot_types := by
  intro t ht
  rw [suggestFromReply, suggestLoop_map_type _ []] at ht
  have h := firstSeenAux_subset _ [] ht
  simp only [List.mem_filter, decide_eq_true_eq] at h
  exact h.2

theorem suggestFromReply_types_nodup (raw : String) :
    ((suggestFromReply raw).map Suggestion.type).Nodup := by
  rw [suggestFromReply, suggestLoop_map_type _ []]
  exact (firstSeenAux_nodup_notmem _ []).1

/-! ## Claim C1 -/

/-- C1 (amended): for every raw text, the suggestion path returns exactly
the accepted tokens deduplicated in first-seen order (members of the
taxonomy, no duplicates); the recognition path returns exactly the
accepted tokens in first-seen order but does not deduplicate — it is the
plain taxonomy filter of the parsed pieces. -/
theorem c1_parse_and_validate (raw : String) :
    ((suggestFromReply raw).map Suggestion.type
        = firstSeen ((parsePieces raw).filter (fun t => t ∈ supported_plot_types)))
    ∧ (∀ t ∈ (suggestFromReply raw).map Suggestion.type, t ∈ supported_plot_types)
    ∧ ((suggestFromReply raw).map Suggestion.type).Nodup
    ∧ recParse raw = (parsePieces raw).filter (fun t => t ∈ supported_plot_types)
    ∧ (∀ t ∈ recParse raw, t ∈ supported_plot_types) := by
  refine ⟨suggestLoop_map_type _ [], fun t ht => suggestFromReply_types_subset raw ht,
          suggestFromReply_types_nodup raw, rfl, ?_⟩
  · intro t ht
    rw [recParse] at ht
    simp only [List.mem_filter, decide_eq_true_eq] at ht
    exact ht.2

/-- C1 counterexample: the recognition path returns a token more than once.
On the reply `"BAR_CHART, BAR_CHART"`, `recognize_visualization_request`
returns `BAR_CHART` twice, so the claim that the routine used by the
chart-kind recognition path never returns duplicates is false. -/
theorem c1_counterexample :
    recognize_visualization_request (some "BAR_CHART, BAR_CHART")
        = ["BAR_CHART", "BAR_CHART"]
    ∧ ¬ (recognize_visualization_request (some "BAR_CHART, BAR_CHART")).Nodup := by
  exact ⟨by decide, by decide⟩

/-! ## Frame preservation of the chart-selection engine -/

theorem barChartStep_fst (df : DF) (t : String) : (barChartStep df t).1 = df := by
  unfold barChartStep; split <;> rfl

theorem lineChartStep_fst (parse : String → Option Int) (df : DF) (t : String) :
    (lineChartStep parse df t).1 = df := by
  unfold lineChartStep
  split
  · rfl
  · split
    · dsimp only; split <;> rfl
    · rfl

theorem scatterStep_fst (df : DF) (t : String) : (scatterStep df t).1 = df := by
  unfold scatterStep; split <;> rfl

theorem histogramStep_fst (df : DF) (t : String) : (histogramStep df t).1 = df := by
  unfold histogramStep; split <;> rfl

theorem boxPlotStep_fst (df : DF) (t : String) : (boxPlotStep df t).1 = df := by
  unfold boxPlotStep; split <;> rfl

theorem pieChartStep_fst (df : DF) (t : String) : (pieChartStep df t).1 = df := by
  unfold pieChartStep; split <;> (try split) <;> rfl

theorem stepKind_fst (parse : String → Option Int) (n : String) (df : DF) (vt : String) :
    (stepKind parse n df vt).1 = df := by
  unfold stepKind
  split_ifs <;>
    first
      | exact barChartStep_fst df _
      | exact lineChartStep_fst parse df _
      | exact scatterStep_fst df _
      | exact histogramStep_fst df _
      | exact boxPlotStep_fst df _
      | exact pieChartStep_fst df _
      | rfl

theorem visFold_fst (parse : String → Option Int) (n : String) (l : List String) :
    ∀ (d : DF) (acc : List ChartSpec),
    (l.foldl (fun acc vt =>
        let s := stepKind parse n acc.1 vt
        (s.1, acc.2 ++ s.2.toList)) (d, acc)).1 = d := by
  induction l with
  | nil => intro d acc; rfl
  | cons vt ts ih =>
      intro d acc
      simp only [List.foldl_cons]
      rw [stepKind_fst parse n d vt]
      exact ih d _

/-! ## Claim C10 -/

/-- C10: the chart-selection engine never mutates its input dataframe: for
every input dataframe, requested kind list and series name, the caller's
dataframe after `visualize_data` is identical (columns, dtypes and values)
to what it was before — the LINE_CHART date-parse attempt is applied to a
copy, and every other kind reads the frame without assigning into it. -/
theorem c10_no_mutation (parse : String → Option Int) (df : DF) (kinds : List String)
    (name : String) : (visualize_data parse df kinds name).frame = df := by
  unfold visualize_data
  split
  · rfl
  · dsimp only
    split
    · rfl
    · split <;> exact visFold_fst parse name _ df []

/-! ## Claim C2 -/

theorem pieChartStep_isSome (df : DF) (t : String) (c0 : Col) (l : List Col)
    (hcat : df.categoricalCols = c0 :: l) :
    (pieChartStep df t).2.isSome = true
      ↔ (1 < distinctCount c0 ∧ distinctCount c0 ≤ 10) := by
  unfold pieChartStep
  rw [hcat]
  cases hn : df.numericalCols <;> dsimp only <;> split <;> simp_all

theorem visualize_data_pie (parse : String → Option Int) (df : DF) (name : String)
    (hne : df.isEmpty = false) :
    (visualize_data parse df ["PIE_CHART"] name).out
      = if (pieChartStep df (chartTitle name "PIE_CHART")).2.isSome
        then .ok (pieChartStep df (chartTitle name "PIE_CHART")).2.toList
        else .error .noPlots := by
  have hstep : stepKind parse name df "PIE_CHART"
      = pieChartStep df (chartTitle name "PIE_CHART") := rfl
  have hv : (["PIE_CHART"] : List String).filter (fun vt => vt ∈ supported_plot_types)
      = ["PIE_CHART"] := by decide
  unfold visualize_data
  rw [if_neg (by simp [hne])]
  dsimp only
  rw [hv]
  rw [if_neg (by decide)]
  simp only [List.foldl_cons, List.foldl_nil, hstep, pieChartStep_fst]
  cases hx : (pieChartStep df (chartTitle name "PIE_CHART")).2 <;> simp [hx]

/-- C2: for every dataframe with at least one categorical column, a
PIE_CHART request produces a chart if and only if the number of distinct
groups of the first categorical column (the group count of the sum
grouping, or of the value counts when no numerical column exists) is
strictly greater than 1 and at most 10; outside that range the sole
PIE_CHART request yields the no-plots failure. -/
theorem c2_pie_cardinality (parse : String → Option Int) (df : DF) (name : String)
    (c0 : Col) (l : List Col) (hne : df.isEmpty = false)
    (hcat : df.categoricalCols = c0 :: l) :
    ((∃ spec, (visualize_data parse df ["PIE_CHART"] name).out = .ok [spec])
        ↔ (1 < distinctCount c0 ∧ distinctCount c0 ≤ 10))
    ∧ (¬ (1 < distinctCount c0 ∧ distinctCount c0 ≤ 10)
        → (visualize_data parse df ["PIE_CHART"] name).out = .error .noPlots) := by
  have hmain := visualize_data_pie parse df name hne
  have hsome := pieChartStep_isSome df (chartTitle name "PIE_CHART") c0 l hcat
  cases hx : (pieChartStep df (chartTitle name "PIE_CHART")).2 with
  | none =>
      have hguard : ¬ (1 < distinctCount c0 ∧ distinctCount c0 ≤ 10) := by
        rw [← hsome, hx]; simp
      rw [hx] at hmain
      simp only [Option.isSome_none, Bool.false_eq_true, if_false] at hmain
      rw [hmain]
      simp [hguard]
  | some spec =>
      have hguard : 1 < distinctCount c0 ∧ distinctCount c0 ≤ 10 := by
        rw [← hsome, hx]; rfl
      rw [hx] at hmain
      simp only [Option.isSome_some, if_true] at hmain
      rw [hmain]
      simp only [Option.toList_some]
      exact ⟨⟨fun _ => hguard, fun _ => ⟨spec, rfl⟩⟩, fun h => absurd hguard h⟩

/-- C2 witness: on a concrete two-row dataframe whose categorical column
has 2 distinct values, the PIE_CHART request produces a chart. -/
theorem c2_witness :
    (DF.isEmpty dfPie2 = false) ∧ (DF.categoricalCols dfPie2 = pieCatCol :: [])
    ∧ (1 < distinctCount pieCatCol ∧ distinctCount pieCatCol ≤ 10)
    ∧ (∃ spec, (visualize_data parseNone dfPie2 ["PIE_CHART"] "t").out = .ok [spec]) :=
  ⟨by decide, by decide, by decide,
   (c2_pie_cardinality parseNone dfPie2 "t" pieCatCol [] (by decide) (by decide)).1.mpr
     (by decide)⟩

/-! ## Claim C3 -/

/-- C3: on a non-empty dataframe, a request whose kind list is empty after
taxonomy filtering fails before any column classification is performed:
the endpoint raises 400 before invoking the engine, and the engine itself,
given a list with no taxonomy member, exits before classifying any column
(its classification flag stays false). -/
theorem c3_empty_kind_list (rr : String → Option String) (parse : String → Option Int)
    (st : Store) (plot_types : String) (df : DF) (s : SchemaInfo)
    (hdf : st.full_dataset_dfs = some df) (hs : st.schemas = some s)
    (hne : df.isEmpty = false) (hnorm : normalizedOf rr plot_types = []) :
    generate_visualization_endpoint rr parse st plot_types
        = (.error ⟨400, "No valid visualization types were provided or recognized."⟩, false)
    ∧ ∀ (df2 : DF) (kinds : List String) (name : String), df2.isEmpty = false →
        kinds.filter (fun vt => vt ∈ supported_plot_types) = [] →
        visualize_data parse df2 kinds name = ⟨.ok [], df2, false⟩ := by
  constructor
  · unfold generate_visualization_endpoint
    rw [hdf, hs]
    dsimp only
    rw [if_neg (by simp [hne])]
    simp [hnorm]
  · intro df2 kinds name hne2 hfilter
    unfold visualize_data
    rw [if_neg (by simp [hne2])]
    dsimp only
    rw [hfilter]
    rfl

/-- C3 witness: with a ready session and a recognizer call that fails on
every fragment, the visualization endpoint returns 400 without
classifying; and the engine given only an off-taxonomy kind exits without
classifying. -/
theorem c3_witness :
    (generate_visualization_endpoint rrNone parseNone storeReady "pie"
        = (.error ⟨400, "No valid visualization types were provided or recognized."⟩, false))
    ∧ visualize_data parseNone dfOneNum ["bogus"] "t" = ⟨.ok [], dfOneNum, false⟩ := by
  have h := c3_empty_kind_list rrNone parseNone storeReady "pie" dfPie2 schemaT rfl rfl
    (by decide) (by decide)
  exact ⟨h.1, h.2 dfOneNum ["bogus"] "t" (by decide) (by decide)⟩

/-! ## Claim C4 -/

/-- C4 (amended): a zero-row dataframe always fails with the no-data error;
when the requested list is empty after taxonomy filtering the engine
returns an empty sequence instead of failing; and when at least one
requested kind survives filtering, a successful return is never empty
(zero produced charts fail with the no-plots error instead). -/
theorem c4_nodata_and_noplots (parse : String → Option Int) (df : DF)
    (kinds : List String) (name : String) :
    (df.nrows = 0 → (visualize_data parse df kinds name).out = .error .emptyData)
    ∧ (df.isEmpty = false → kinds.filter (fun vt => vt ∈ supported_plot_types) = []
        → visualize_data parse df kinds name = ⟨.ok [], df, false⟩)
    ∧ (df.isEmpty = false → kinds.filter (fun vt => vt ∈ supported_plot_types) ≠ []
        → ∀ specs, (visualize_data parse df kinds name).out = .ok specs → specs ≠ []) := by
  refine ⟨?_, ?_, ?_⟩
  · intro h0
    unfold visualize_data
    rw [if_pos (by simp [DF.isEmpty, h0])]
  · intro hne hfilter
    unfold visualize_data
    rw [if_neg (by simp [hne])]
    dsimp only
    rw [hfilter]
    rfl
  · intro hne hfilter specs hout
    unfold visualize_data at hout
    rw [if_neg (by simp [hne])] at hout
    dsimp only at hout
    rw [if_neg (by simp [List.isEmpty_iff, hfilter])] at hout
    split at hout
    · exact absurd hout (by simp)
    · next hemp =>
        dsimp only at hout
        intro hcontra
        rw [Except.ok.injEq] at hout
        rw [hout, hcontra] at hemp
        exact hemp rfl

/-- C4 counterexample: on a non-empty dataframe with the kind list
`["bogus"]` (zero valid kinds) the engine produces zero charts yet returns
the empty sequence successfully instead of failing with the no-plots
error, so the claim that producing zero charts always fails is false. -/
theorem c4_counterexample :
    (visualize_data parseNone dfOneNum ["bogus"] "t").out = .ok []
    ∧ (visualize_data parseNone dfOneNum ["bogus"] "t").out ≠ .error .noPlots := by
  exact ⟨by decide, by decide⟩

/-- C4 witness: the three conjuncts instantiated at concrete inputs — a
zero-row frame fails with no-data, an all-invalid kind list returns empty,
and a valid kind that plots never yields an empty success. -/
theorem c4_witness :
    ((visualize_data parseNone (DF.mk 0 []) ["BAR_CHART"] "t").out = .error .emptyData)
    ∧ visualize_data parseNone dfOneNum ["bogus"] "t" = ⟨.ok [], dfOneNum, false⟩
    ∧ ¬ ((visualize_data parseNone dfOneNum ["HISTOGRAM"] "t").out = .ok []) := by
  refine ⟨(c4_nodata_and_noplots parseNone (DF.mk 0 []) ["BAR_CHART"] "t").1 rfl,
          (c4_nodata_and_noplots parseNone dfOneNum ["bogus"] "t").2.1 (by decide) (by decide),
          fun hout =>
            (c4_nodata_and_noplots parseNone dfOneNum ["HISTOGRAM"] "t").2.2 (by decide)
              (by decide) [] hout rfl⟩

/-! ## Claim C5 -/

/-- C5: the prompt that `llm_to_sql` builds contains no column of the
schema produced by `get_schema`, because `llm_to_sql` reads the dict key
`"column_names"` while `get_schema` stores the columns under `"columns"`:
for every ingested schema the column lookup yields the empty default and
the schema string degenerates to the bare header. -/
theorem c5_schema_key_mismatch (name : String) (rows : List (String × String))
    (reply : Option String) :
    dictGetCols (get_schema name rows) "column_names" = []
    ∧ (llm_to_sql (get_schema name rows) reply).1 = "Table: " ++ name ++ "\nColumns:\n" :=
  ⟨rfl, rfl⟩

/-! ## Claim C6 -/

/-- C6: the query endpoint fails with the translation error and executes
no query exactly when the text-generation call failed or its reply is
empty after stripping whitespace; both cases produce the identical
HTTP 500 result. -/
theorem c6_translation_failure (st : Store) (schema : SchemaInfo) (llmReply : Option String)
    (exec : String → Except ExecErr DF)
    (hconn : st.connections = some ()) (hschema : st.schemas = some schema) :
    ((query_data_endpoint st llmReply exec).2
        = (.error ⟨500, "Failed to generate SQL query from natural language. Please rephrase your question."⟩, none))
      ↔ (llmReply = none ∨ ∃ s, llmReply = some s ∧ pyStrip s = "") := by
  unfold query_data_endpoint
  rw [hconn, hschema]
  dsimp only
  cases llmReply with
  | none => simp [llm_to_sql]
  | some s =>
      simp only [llm_to_sql, Option.map]
      by_cases hempty : pyStrip s = ""
      · simp [hempty]
      · rw [if_neg hempty]
        constructor
        · intro hcontra
          exfalso
          rcases hx : exec (pyStrip s) with e | odf <;> rw [hx] at hcontra
          · simp at hcontra
          · split at hcontra <;> (try split at hcontra) <;> simp at hcontra
        · intro h
          exfalso
          simp [hempty] at h

/-- C6 witness: with an ingested session and a failed text-generation
call, the endpoint returns the translation failure and executes nothing. -/
theorem c6_witness :
    storeReady.connections = some () ∧ storeReady.schemas = some schemaT
    ∧ ((query_data_endpoint storeReady none execOk).2
        = (.error ⟨500, "Failed to generate SQL query from natural language. Please rephrase your question."⟩, none)) :=
  ⟨rfl, rfl,
   (c6_translation_failure storeReady schemaT none execOk rfl rfl).mpr (Or.inl rfl)⟩

/-! ## Claim C7 -/

/-- C7 (amended): piece normalization trims whitespace and then removes
every single- and double-quote character anywhere in the piece — not one
surrounding layer — so doubly-quoted and interior-quoted spellings of a
taxonomy token do match it. -/
theorem c7_quote_removal (l : List Char) :
    normalizePiece l = (pyStripChars l).filter (fun c => ¬ (c = squote ∨ c = dquote))
    ∧ recParse doublyQuotedBar = ["BAR_CHART"]
    ∧ recParse interiorQuotedBar = ["BAR_CHART"] := by
  refine ⟨?_, by decide, by decide⟩
  unfold normalizePiece pyDeleteChar
  rw [List.filter_filter]
  apply List.filter_congr
  intro c _
  by_cases hs : c = squote <;> by_cases hd : c = dquote <;> simp [hs, hd]

/-- C7 counterexample: the doubly-quoted piece and the interior-quoted
piece both match BAR_CHART, so the claim that they match no taxonomy token
is false. -/
theorem c7_counterexample :
    recognize_visualization_request (some doublyQuotedBar) = ["BAR_CHART"]
    ∧ recognize_visualization_request (some interiorQuotedBar) = ["BAR_CHART"] :=
  ⟨by decide, by decide⟩

/-! ## Claim C8 -/

/-- C8 (amended): for every schema and reply, `suggest_visualizations`
returns at most 6 entries — the size of the taxonomy its deduplication
filters against; the at-most-4 bound is imposed only by the prompt, not by
code. -/
theorem c8_suggest_length (si : SchemaInfo) (reply : Option String) :
    (suggest_visualizations si reply).length ≤ 6 := by
  unfold suggest_visualizations
  dsimp only
  split
  · simp
  · cases reply with
    | none => simp
    | some content =>
        dsimp only
        have h1 := suggestFromReply_types_nodup (pyStrip content)
        have h2 := suggestFromReply_types_subset (pyStrip content)
        have h3 := (h1.subperm h2).length_le
        rw [List.length_map] at h3
        exact h3

/-- C8 counterexample: a reply naming all six taxonomy kinds makes
`suggest_visualizations` return 6 entries, so the claimed bound of 4 is
false. -/
theorem c8_counterexample :
    ¬ ((suggest_visualizations schemaT
        (some "BAR_CHART, LINE_CHART, SCATTER_PLOT, HISTOGRAM, BOX_PLOT, PIE_CHART")).length
          ≤ 4) := by
  decide

/-! ## Claim C9 -/

/-- C9: every successful ingestion replaces the session schema and full
dataset wholesale and deletes any stored last query result and generated
charts, so no state derived from the previous dataset survives. -/
theorem c9_ingest_replaces_state (st : Store) (start : Int) (conn : Option Unit)
    (schema : SchemaInfo) (full_df : DF) (reply : Option String)
    (hstart : ¬ start < 1) (hconn : conn = some ()) :
    ((ingest_data_and_extract_schema_endpoint st start conn schema full_df reply).1.schemas
        = some schema)
    ∧ ((ingest_data_and_extract_schema_endpoint st start conn schema full_df reply).1.full_dataset_dfs
        = some full_df)
    ∧ ((ingest_data_and_extract_schema_endpoint st start conn schema full_df reply).1.last_query_results
        = none)
    ∧ ((ingest_data_and_extract_schema_endpoint st start conn schema full_df reply).1.generated_plotly_figures
        = none)
    ∧ ∃ r, (ingest_data_and_extract_schema_endpoint st start conn schema full_df reply).2
        = .ok r := by
  subst hconn
  unfold ingest_data_and_extract_schema_endpoint
  rw [if_neg hstart]
  exact ⟨rfl, rfl, rfl, rfl, ⟨_, rfl⟩⟩

/-- C9 witness: re-ingesting over a store that holds a stale query result
and stale charts clears both and installs the new schema and dataset. -/
theorem c9_witness :
    ¬ ((1 : Int) < 1)
    ∧ ((ingest_data_and_extract_schema_endpoint storeStale 1 (some ()) schemaT dfPie2 none).1.schemas
        = some schemaT)
    ∧ ((ingest_data_and_extract_schema_endpoint storeStale 1 (some ()) schemaT dfPie2 none).1.full_dataset_dfs
        = some dfPie2)
    ∧ ((ingest_data_and_extract_schema_endpoint storeStale 1 (some ()) schemaT dfPie2 none).1.last_query_results
        = none)
    ∧ ((ingest_data_and_extract_schema_endpoint storeStale 1 (some ()) schemaT dfPie2 none).1.generated_plotly_figures
        = none) := by
  have h := c9_ingest_replaces_state storeStale 1 (some ()) schemaT dfPie2 none
    (by decide) rfl
  exact ⟨by decide, h.1, h.2.1, h.2.2.1, h.2.2.2.1⟩
